import Mathlib

/-!
Shallow embedding of `lancedb_inspector.py` (the LanceDB inspector page of the
blizz repository) together with proofs about its observable behavior.

The script is a Streamlit page.  Its observable behavior is modelled as a list
of render events (`REvent`); the external collaborators (the `lancedb` library
and the filesystem) are modelled as explicit parameters whose interfaces follow
the calls the script makes on them.  Machine-level details (actual Arrow
buffers, real directory walking) are replaced by explicit data:
a filesystem tree (`FSList`) and tables carrying their rows.
-/

namespace LanceInspector

/-- A value in a pandas dataframe cell: a string, an integer, or Python's
`None` (null).  Python's `str` — and hence pandas' `astype(str)` — sends
`None` to the five-character string `"None"`. -/
inductive PyVal : Type
  | str (s : String)
  | int (n : Int)
  | none
deriving DecidableEq

/-- Python's `str` coercion on the cell values we model (`astype(str)` applies
it elementwise; in particular `str(None) = "None"`). -/
def pyStr : PyVal → String
  | .str s => s
  | .int n => toString n
  | .none => "None"

/-- A pandas dataframe: named columns and rows of cells (each row aligned with
`columns`). -/
structure Df where
  columns : List String
  rows : List (List PyVal)
deriving DecidableEq

/-- One Streamlit render event, in the order the script emits them.  The `sb…`
constructors are sidebar widgets, the rest render in the main page area. -/
inductive REvent : Type
  | title (s : String)
  | header (s : String)
  | metric (label value : String)
  | dataframe (d : Df)
  | success (s : String)
  | errorMsg (s : String)
  | infoMsg (s : String)
  | write (s : String)
  | markdown (s : String)
  | sbHeader (s : String)
  | sbSuccess (s : String)
  | sbError (s : String)
  | sbInfo (s : String)
  | sbTextInput (label : String)
  | sbSelectbox (options : List String)
  | sbButton (label : String)
  | selectbox (label : String) (options : List String)
  | textInput (label : String)
  | textArea (label dflt : String)
  | button (label : String)
deriving DecidableEq

/-! ### String helpers (models of the Python string operations the script uses) -/

/-- Model of Python's `str.startswith`. -/
def strStartsWith (s pre : String) : Bool := pre.data.isPrefixOf s.data

/-- Model of Python's `str.endswith`. -/
def strEndsWith (s suf : String) : Bool := suf.data.reverse.isPrefixOf s.data.reverse

/-- Model of Python's `str.lower` (ASCII case folding, which covers every
string the script manipulates). -/
def strLower (s : String) : String := ⟨s.data.map Char.toLower⟩

/-- Substring test on character lists: some tail of `hay` starts with `pat`.
This is what `re.search` computes for a pattern containing no regex
metacharacter (after case folding both sides, for `re.IGNORECASE`), and it is
the wording the spec uses for the search. -/
def containsSub (hay pat : List Char) : Bool := hay.tails.any fun t => pat.isPrefixOf t

/-- Model of `os.path.basename` for POSIX paths: the part after the last `/`. -/
def os_basename (s : String) : String := ⟨(s.data.reverse.takeWhile (fun c => c ≠ '/')).reverse⟩

/-- Model of Python's `str.replace pat → rep`: scan left to right, replacing
each (non-overlapping) occurrence of `pat`.  The recursion is driven by a fuel
argument; fuel equal to the length of the scanned list suffices because every
step consumes at least one character (the script only ever uses the non-empty
pattern `".lance"`). -/
def replaceFuel (pat rep : List Char) : Nat → List Char → List Char
  | _, [] => []
  | 0, l => l
  | fuel + 1, c :: cs =>
    if pat.isPrefixOf (c :: cs) && !pat.isEmpty then
      rep ++ replaceFuel pat rep fuel ((c :: cs).drop pat.length)
    else
      c :: replaceFuel pat rep fuel cs

/-- Model of Python's `str.replace` (string-level wrapper). -/
def pyReplace (s old new : String) : String :=
  ⟨replaceFuel old.data new.data s.data.length s.data⟩

/-! ### Filesystem model and `discover_lance_files`

The script's discovery step is one call:
`glob.glob(os.path.join(db_path, "**", "*.lance"), recursive=True)`.
We model the directory tree under `db_path` explicitly and translate the glob
call by its documented semantics: `**` (with `recursive=True`) matches zero or
more directory levels, `*.lance` matches any entry — file or directory — whose
name ends in `.lance`; names beginning with a dot are hidden, are not matched
by `*` or `**`, and hidden directories are not descended into. -/

mutual
/-- One entry in the directory tree below the database path. -/
inductive FSEntry : Type
  | file (name : String)
  | dir (name : String) (children : FSList)
/-- A directory listing. -/
inductive FSList : Type
  | nil
  | cons (e : FSEntry) (t : FSList)
end

/-- The name of a filesystem entry. -/
def FSEntry.name : FSEntry → String
  | .file n => n
  | .dir n _ => n

/-- A name is hidden when it begins with a dot (glob's special case). -/
def hiddenName (s : String) : Bool := strStartsWith s "."

/-- Whether `*.lance` matches a directory entry named `s`: the name must end in
`.lance` and must not be hidden. -/
def matchesLancePattern (s : String) : Bool := !hiddenName s && strEndsWith s ".lance"

/-- The matches of `*.lance` among the immediate children of the directory with
path `p` (the `**` component matching zero further levels). -/
def globLocal (p : String) : FSList → List String
  | .nil => []
  | .cons e t =>
    (if matchesLancePattern e.name then [p ++ "/" ++ e.name] else []) ++ globLocal p t

/-- The matches of `**/*.lance` that lie at least one directory level below
`p`: `**` descends into each non-hidden subdirectory, pre-order. -/
def globRecur (p : String) : FSList → List String
  | .nil => []
  | .cons (FSEntry.file _) t => globRecur p t
  | .cons (FSEntry.dir n cs) t =>
    (if hiddenName n then []
     else globLocal (p ++ "/" ++ n) cs ++ globRecur (p ++ "/" ++ n) cs) ++ globRecur p t

/-- `discover_lance_files(db_path)` =
`glob.glob(os.path.join(db_path, "**", "*.lance"), recursive=True)` on the tree
`root` below `db_path`. -/
def discover_lance_files (db_path : String) (root : FSList) : List String :=
  globLocal db_path root ++ globRecur db_path root

/-- Following the claim's words (not the code): the set of *files* anywhere
beneath the directory whose name ends in the fixed suffix `".lance"`, with no
exception for hidden names or hidden parent directories. -/
def specLanceFiles (p : String) : FSList → List String
  | .nil => []
  | .cons (FSEntry.file n) t =>
    (if strEndsWith n ".lance" then [p ++ "/" ++ n] else []) ++ specLanceFiles p t
  | .cons (FSEntry.dir n cs) t => specLanceFiles (p ++ "/" ++ n) cs ++ specLanceFiles p t

/-- The amended description of discovery: every entry — file or directory —
whose non-hidden name ends in `".lance"` and which is reachable from the root
through non-hidden directories only, listed entry by entry. -/
def amendedLanceSet (p : String) : FSList → List String
  | .nil => []
  | .cons (FSEntry.file n) t =>
    (if matchesLancePattern n then [p ++ "/" ++ n] else []) ++ amendedLanceSet p t
  | .cons (FSEntry.dir n cs) t =>
    (if matchesLancePattern n then [p ++ "/" ++ n] else []) ++
    (if hiddenName n then [] else amendedLanceSet (p ++ "/" ++ n) cs) ++
    amendedLanceSet p t

/-! ### Table-name derivation -/

/-- The `format_func` of the sidebar selectbox (source line 57):
`lambda x: os.path.basename(x).replace('.lance', '')`. -/
def selectorFormatFunc (x : String) : String := pyReplace (os_basename x) ".lance" ""

/-- The table name computed on connect (source line 121):
`os.path.basename(selected_file).replace('.lance', '')`. -/
def connectTableName (selected_file : String) : String :=
  pyReplace (os_basename selected_file) ".lance" ""

/-- Following the claim's words (not the code): strip the fixed suffix
`".lance"` from a base name, leaving other occurrences alone. -/
def stripLanceSuffix (s : String) : String :=
  if strEndsWith s ".lance" then ⟨s.data.take (s.data.length - 6)⟩ else s

/-! ### The external `lancedb` collaborator

Modelled from the spec's interface description (§6): a table handle exposes
`count_rows()` (the total row count), `schema()` (field name / type pairs) and
`limit(n).to_pandas()` (the first `n` rows); a connection exposes
`open_table(name)` and `query(text)`.  Each call may instead raise; the
`…Fail` fields say whether it does, so that every failure point of the
script's chain can be exercised. -/

/-- A table handle.  `rows`/`cols`/`schemaFields` are the table's contents;
the `…Fail` fields make the corresponding accessor raise. -/
structure Table where
  rows : List (List PyVal)
  cols : List String
  schemaFields : List (String × String)
  countFail : Option String
  schemaFail : Option String
  fetchFail : Option String

/-- `table.count_rows()`: the total number of rows, or an exception. -/
def Table.count_rows (t : Table) : Except String Nat :=
  match t.countFail with
  | some e => .error e
  | none => .ok t.rows.length

/-- `table.schema()` viewed through `.items()`: the field/type pairs, or an
exception. -/
def Table.schemaItems (t : Table) : Except String (List (String × String)) :=
  match t.schemaFail with
  | some e => .error e
  | none => .ok t.schemaFields

/-- `table.limit(n).to_pandas()`: the first `n` rows as a dataframe, or an
exception. -/
def Table.limit_to_pandas (t : Table) (n : Nat) : Except String Df :=
  match t.fetchFail with
  | some e => .error e
  | none => .ok ⟨t.cols, t.rows.take n⟩

/-- A connection handle (`lancedb.connect(path)` result). -/
structure Conn where
  open_table : String → Except String Table
  query : String → Except String Df

/-- The imported `lancedb` module; `import lancedb` itself may raise
`ImportError`, so the script receives an `Except String LanceLib`. -/
structure LanceLib where
  connect : String → Except String Conn

/-- The widget values of one rerun: which file is selected in the dropdown,
whether the connect button was pressed, the search column choice (the real
selectbox restricts it to `df.columns`) and term, and the query box text and
button. -/
structure UIInputs where
  fileChoice : Nat
  connectPressed : Bool
  searchCol : String
  searchTerm : String
  queryText : String
  queryPressed : Bool

/-! ### The script's functions -/

/-- `create_table_selector(lance_files)`: renders the sidebar selectbox whose
labels are `format_func` of each file, and returns the selected file (the
`choice`-th option). -/
def create_table_selector (lance_files : List String) (choice : Nat) : REvent × String :=
  (REvent.sbSelectbox (lance_files.map selectorFormatFunc), lance_files.getD choice "")

/-- `display_table_metrics(table, name, path)`.  The row count is computed
before any metric is rendered, so a raising `count_rows` renders nothing;
otherwise the three metrics render in order.  The second component is the
exception, if one was raised. -/
def display_table_metrics (table : Table) (name path : String) :
    List REvent × Option String :=
  match table.count_rows with
  | .error e => ([], some e)
  | .ok count =>
    ([REvent.metric "Total Records" (toString count),
      REvent.metric "Table Name" name,
      REvent.metric "Database Path" path], none)

/-- The dataframe `display_schema_info` builds from the schema items. -/
def schemaDf (fields : List (String × String)) : Df :=
  ⟨["Field", "Type"], fields.map fun p => [PyVal.str p.1, PyVal.str p.2]⟩

/-- `display_schema_info(table)`: the header renders first, then `schema()` is
called; on an exception only the header has rendered. -/
def display_schema_info (table : Table) : List REvent × Option String :=
  match table.schemaItems with
  | .error e => ([REvent.header "📋 Table Schema"], some e)
  | .ok fields =>
    ([REvent.header "📋 Table Schema", REvent.dataframe (schemaDf fields)], none)

/-- `display_sample_records(table)`: header, then `table.limit(10).to_pandas()`
rendered as a dataframe; the fetched dataframe is also returned for the search
handler. -/
def display_sample_records (table : Table) : List REvent × Except String Df :=
  match table.limit_to_pandas 10 with
  | .error e => ([REvent.header "📊 Sample Records"], .error e)
  | .ok df => ([REvent.header "📊 Sample Records", REvent.dataframe df], .ok df)

/-- Modelled from the Python standard library `re` (an external collaborator,
reached through pandas): `compile term` is `re.compile(term, re.IGNORECASE)`
packaged as the predicate `s ↦ (search(s) ≠ None)`, or the `re.error`
exception for a pattern that does not compile.  pandas'
`str.contains(term, case=False, na=False)` keeps its `regex=True` default, so
it compiles the user's term once this way and applies the matcher to every
value. -/
structure RegexEngine where
  compile : String → Except String (String → Bool)

/-- The characters `re` treats as special. -/
def regexMeta (c : Char) : Bool :=
  c ∈ ['.', '^', '$', '*', '+', '?', '{', '}', '[', ']', '\\', '|', '(', ')']

/-- A term with no regex metacharacter, which `re` matches literally. -/
def LiteralTerm (t : String) : Prop := ∀ c ∈ t.data, regexMeta c = false

instance (t : String) : Decidable (LiteralTerm t) := by
  unfold LiteralTerm; exact List.decidableBAll _ _

/-- The `re` interface fact the claims rely on, as a constraint on an engine:
a metacharacter-free pattern compiles, and matches exactly where it occurs as
a case-insensitive substring. -/
def LiteralFaithful (eng : RegexEngine) : Prop :=
  ∀ t : String, LiteralTerm t →
    eng.compile t = .ok fun s => containsSub (strLower s).data (strLower t).data

/-- The engine that treats every pattern literally: it agrees with `re` on
every metacharacter-free pattern, and is used to instantiate concrete runs at
such terms. -/
def literalEngine : RegexEngine :=
  ⟨fun t => .ok fun s => containsSub (strLower s).data (strLower t).data⟩

theorem literalEngine_faithful : LiteralFaithful literalEngine := fun _ _ => rfl

/-- The cell of row `r` in the column at index `i`. -/
def rowCell (r : List PyVal) (i : Nat) : PyVal := r.getD i PyVal.none

/-- `df[mask]` for the compiled matcher `m` on column `col`: the mask is
`astype(str)` followed by the matcher — `m` applied to the Python string form
of each cell (nulls having become `"None"`). -/
def searchFilterM (m : String → Bool) (df : Df) (col : String) : Df :=
  ⟨df.columns, df.rows.filter fun r => m (pyStr (rowCell r (df.columns.indexOf col)))⟩

/-- `handle_search_ui(df)`: header and the two widgets always render; for a
non-empty term (Python's `if term:`) the mask
`df[col].astype(str).str.contains(term, case=False, na=False)` is computed,
which first compiles the term as a case-insensitive regex — raising `re.error`
for an invalid pattern (second component `some e`, propagating into the
caller's `try` with the widgets already rendered) — and on success renders the
`Found …` line and the filtered dataframe. -/
def handle_search_ui (eng : RegexEngine) (df : Df) (col term : String) :
    List REvent × Option String :=
  let widgets := [REvent.header "🔍 Search Records",
    REvent.selectbox "Search in column" df.columns,
    REvent.textInput "Search term"]
  if term ≠ "" then
    match eng.compile term with
    | .error e => (widgets, some e)
    | .ok m =>
      (widgets ++
        [REvent.write ("Found " ++ toString (searchFilterM m df col).rows.length ++
          " matching records"),
         REvent.dataframe (searchFilterM m df col)], none)
  else (widgets, none)

/-- `handle_raw_query(db)`: header, query text area and button always render;
on press the text is passed to `db.query` and the result — or the caught
exception — renders.  The second component records the strings passed to
`db.query`, so that verbatim submission is observable. -/
def handle_raw_query (db : Conn) (queryText : String) (pressed : Bool) :
    List REvent × List String :=
  let base := [REvent.header "⚡ Raw Query",
               REvent.textArea "LanceDB Query" "SELECT * FROM table LIMIT 100",
               REvent.button "Execute Query"]
  if pressed then
    match db.query queryText with
    | .ok df => (base ++ [REvent.dataframe df], [queryText])
    | .error e => (base ++ [REvent.errorMsg ("Query failed: " ++ e)], [queryText])
  else (base, [])

/-- `connect_to_database(db_path, selected_file)`: the whole chain under one
`try`.  `ImportError` gets its own message; any other exception anywhere in
the chain — a raising table accessor or a `re.error` from the search mask —
aborts the remaining steps and appends `Connection failed: …`, leaving the
events already rendered in place. -/
def connect_to_database (lib : Except String LanceLib) (eng : RegexEngine)
    (db_path selected_file : String) (ui : UIInputs) : List REvent :=
  match lib with
  | .error e =>
    [REvent.errorMsg ("Missing dependencies: " ++ e),
     REvent.infoMsg "Install with: pip install lancedb streamlit pandas"]
  | .ok l =>
    match l.connect db_path with
    | .error e => [REvent.errorMsg ("Connection failed: " ++ e)]
    | .ok db =>
      let name := connectTableName selected_file
      let ev0 := [REvent.success ("Connected to table: " ++ name)]
      match db.open_table name with
      | .error e => ev0 ++ [REvent.errorMsg ("Connection failed: " ++ e)]
      | .ok table =>
        match display_table_metrics table name db_path with
        | (ev1, some e) => ev0 ++ ev1 ++ [REvent.errorMsg ("Connection failed: " ++ e)]
        | (ev1, none) =>
          match display_schema_info table with
          | (ev2, some e) =>
            ev0 ++ ev1 ++ ev2 ++ [REvent.errorMsg ("Connection failed: " ++ e)]
          | (ev2, none) =>
            match display_sample_records table with
            | (ev3, .error e) =>
              ev0 ++ ev1 ++ ev2 ++ ev3 ++ [REvent.errorMsg ("Connection failed: " ++ e)]
            | (ev3, .ok df) =>
              let ev4 := (handle_search_ui eng df ui.searchCol ui.searchTerm).1
              match (handle_search_ui eng df ui.searchCol ui.searchTerm).2 with
              | some e =>
                ev0 ++ ev1 ++ ev2 ++ ev3 ++ ev4 ++
                [REvent.errorMsg ("Connection failed: " ++ e)]
              | none =>
                ev0 ++ ev1 ++ ev2 ++ ev3 ++ ev4 ++
                (handle_raw_query db ui.queryText ui.queryPressed).1

/-- `handle_db_exists(db_path)`: discover, report the count in the sidebar,
and when files were found render the selector and connect button, connecting
on press. -/
def handle_db_exists (db_path : String) (root : FSList) (ui : UIInputs)
    (lib : Except String LanceLib) (eng : RegexEngine) : List REvent :=
  let files := discover_lance_files db_path root
  [REvent.sbSuccess ("Found " ++ toString files.length ++ " LanceDB files")] ++
  (if files.isEmpty then []
   else
     let sel := create_table_selector files ui.fileChoice
     [sel.1, REvent.sbButton "🔗 Connect to Database"] ++
     (if ui.connectPressed then connect_to_database lib eng db_path sel.2 ui else []))

/-- `handle_db_missing(db_path)`: the sidebar error and guidance text. -/
def handle_db_missing (db_path : String) : List REvent :=
  [REvent.sbError ("Database path not found: " ++ db_path),
   REvent.sbInfo "Make sure your LanceDB database exists at this location"]

/-! ### Module-level execution

Python executes a module top to bottom; a `def` statement binds its name only
when it executes, and a call looks the name up at call time.  The inspector
script performs its `if os.path.exists(db_path): handle_db_exists(…) else:
handle_db_missing(…)` dispatch at lines 41–44, *before* the `def` statements
that create those two names (lines 139 and 150).  The statement list below
records the script's top-level statements in source order; `runScript` executes
them, raising `NameError` when the dispatch calls a name not yet bound. -/

/-- A Python error that can escape the top level of the script. -/
inductive PyError : Type
  | nameError (n : String)
deriving DecidableEq

/-- A top-level statement of the script, as far as execution is concerned:
plain UI rendering, a `def` binding a name, or the lines 41–44 dispatch. -/
inductive Stmt : Type
  | uiS (evs : List REvent)
  | defS (n : String)
  | dispatchS

/-- The events of lines 13–38: page config, title, sidebar header and the
database-path text input. -/
def pageHeaderEvents : List REvent :=
  [REvent.title "🔍 LanceDB Database Inspector",
   REvent.sbHeader "Database Connection",
   REvent.sbTextInput "Database Path"]

/-- The events of lines 156–174: the instructions block and the footer. -/
def footerEvents : List REvent :=
  [REvent.sbHeader "📖 Instructions",
   REvent.markdown "1. Install dependencies 2. Set your database path above 3. Select a table from the dropdown 4. Click Connect to Database 5. Explore your data!",
   REvent.markdown "---",
   REvent.markdown "*LanceDB Inspector - Built for debugging and data exploration*"]

/-- The script's top-level statements in source order: UI preamble, the
existence dispatch (lines 41–44), then the ten `def` statements (lines
47–153), then the instructions and footer. -/
def scriptStmts : List Stmt :=
  [Stmt.uiS pageHeaderEvents,
   Stmt.dispatchS,
   Stmt.defS "discover_lance_files",
   Stmt.defS "create_table_selector",
   Stmt.defS "display_table_metrics",
   Stmt.defS "display_schema_info",
   Stmt.defS "display_sample_records",
   Stmt.defS "handle_search_ui",
   Stmt.defS "handle_raw_query",
   Stmt.defS "connect_to_database",
   Stmt.defS "handle_db_exists",
   Stmt.defS "handle_db_missing",
   Stmt.uiS footerEvents]

/-- Execute the statements with the current bound names `env` and rendered
events `evs`.  `fsOpt = some root` means `os.path.exists(db_path)` is true and
the tree below it is `root`; `none` means the path does not exist.  The
dispatch raises `NameError` when the handler it needs is not yet bound. -/
def runStmts (fsOpt : Option FSList) (db_path : String) (ui : UIInputs)
    (lib : Except String LanceLib) (eng : RegexEngine) :
    List Stmt → List String → List REvent → Except PyError (List REvent)
  | [], _, evs => .ok evs
  | Stmt.uiS e :: r, env, evs => runStmts fsOpt db_path ui lib eng r env (evs ++ e)
  | Stmt.defS n :: r, env, evs => runStmts fsOpt db_path ui lib eng r (n :: env) evs
  | Stmt.dispatchS :: r, env, evs =>
    match fsOpt with
    | some root =>
      if "handle_db_exists" ∈ env then
        runStmts fsOpt db_path ui lib eng r env
          (evs ++ handle_db_exists db_path root ui lib eng)
      else .error (PyError.nameError "handle_db_exists")
    | none =>
      if "handle_db_missing" ∈ env then
        runStmts fsOpt db_path ui lib eng r env (evs ++ handle_db_missing db_path)
      else .error (PyError.nameError "handle_db_missing")

/-- One full evaluation of the script module. -/
def runScript (fsOpt : Option FSList) (db_path : String) (ui : UIInputs)
    (lib : Except String LanceLib) (eng : RegexEngine) : Except PyError (List REvent) :=
  runStmts fsOpt db_path ui lib eng scriptStmts [] []

/-! ## Theorems for the claims -/

/-- C1: the claim says no uncaught exception ever escapes a run of the script.
In fact every run of the module raises `NameError` at top level: the dispatch
at lines 41–44 executes before the `def` statements for `handle_db_exists`
(line 139) and `handle_db_missing` (line 150) have bound those names, whichever
way the existence check goes and whatever the collaborators do. -/
theorem C1_every_run_raises_NameError :
    (∀ (root : FSList) (db_path : String) (ui : UIInputs) (lib : Except String LanceLib)
       (eng : RegexEngine),
      runScript (some root) db_path ui lib eng =
        .error (PyError.nameError "handle_db_exists")) ∧
    (∀ (db_path : String) (ui : UIInputs) (lib : Except String LanceLib) (eng : RegexEngine),
      runScript none db_path ui lib eng = .error (PyError.nameError "handle_db_missing")) :=
  ⟨fun _ _ _ _ _ => rfl, fun _ _ _ _ => rfl⟩

/-- C6: the claim says a nonexistent path runs exactly the not-found branch,
rendering the not-found message and guidance.  The run indeed never reaches
discovery or connection, but not by taking that branch: it raises `NameError`
on `handle_db_missing` before anything of the branch (whose rendering the
second conjunct records) executes. -/
theorem C6_missing_path_crashes_before_branch :
    (∀ (db_path : String) (ui : UIInputs) (lib : Except String LanceLib) (eng : RegexEngine),
      runScript none db_path ui lib eng = .error (PyError.nameError "handle_db_missing") ∧
      runScript none db_path ui lib eng ≠
        .ok (pageHeaderEvents ++ handle_db_missing db_path ++ footerEvents)) ∧
    (∀ db_path : String, handle_db_missing db_path =
      [REvent.sbError ("Database path not found: " ++ db_path),
       REvent.sbInfo "Make sure your LanceDB database exists at this location"]) :=
  ⟨fun _ _ _ _ => ⟨rfl, fun h => nomatch h⟩, fun _ => rfl⟩

/-- C8: with an empty search term, `handle_search_ui` renders only the header
and the two widgets — no `Found …` write, no filtered dataframe, and no
raised error (the term is never compiled). -/
theorem C8_empty_term_no_output :
    ∀ (eng : RegexEngine) (df : Df) (col : String),
      handle_search_ui eng df col "" =
        ([REvent.header "🔍 Search Records",
          REvent.selectbox "Search in column" df.columns,
          REvent.textInput "Search term"], none) ∧
      ∀ e ∈ (handle_search_ui eng df col "").1,
        (∀ s, e ≠ REvent.write s) ∧ (∀ d, e ≠ REvent.dataframe d) := by
  intro eng df col
  constructor
  · simp [handle_search_ui]
  · intro e he
    simp [handle_search_ui] at he
    rcases he with h | h | h <;> subst h <;> exact ⟨fun _ => by simp, fun _ => by simp⟩

/-- C9: `display_sample_records` fetches `table.limit(10).to_pandas()`, so on
a table with `R` rows whose fetch succeeds it displays — and returns for the
search handler — exactly the first `min R 10` rows. -/
theorem C9_sample_is_first_ten :
    ∀ (rows : List (List PyVal)) (cols : List String)
      (fields : List (String × String)) (cf sf : Option String),
      display_sample_records ⟨rows, cols, fields, cf, sf, none⟩ =
        ([REvent.header "📊 Sample Records", REvent.dataframe ⟨cols, rows.take 10⟩],
         .ok ⟨cols, rows.take 10⟩) ∧
      (rows.take 10).length = min rows.length 10 := by
  intro rows cols fields cf sf
  refine ⟨rfl, ?_⟩
  simp [List.length_take, Nat.min_comm]

/-- C10: the dropdown label of the chosen file (the selectbox's `format_func`
at line 57) and the table name `connect_to_database` opens for that file
(line 121) are the same derivation, so the user connects to the table whose
name was displayed. -/
theorem C10_selector_label_eq_connect_name :
    (∀ x : String, selectorFormatFunc x = connectTableName x) ∧
    ∀ (files : List String) (choice : Nat) (h : choice < files.length),
      (files.map selectorFormatFunc).get ⟨choice, by simpa using h⟩ =
        connectTableName ((create_table_selector files choice).2) := by
  refine ⟨fun _ => rfl, ?_⟩
  intro files choice h
  simp [create_table_selector, List.getD_eq_getElem?_getD, List.getElem?_eq_getElem h,
    connectTableName, selectorFormatFunc]

/-- Discovery agrees, membership-wise, with the declarative description
`amendedLanceSet`: non-hidden `.lance`-suffixed entries reachable through
non-hidden directories. -/
theorem mem_glob_iff_amended (x : String) :
    ∀ (cs : FSList) (p : String),
      (x ∈ globLocal p cs ++ globRecur p cs ↔ x ∈ amendedLanceSet p cs)
  | FSList.nil, p => by simp [globLocal, globRecur, amendedLanceSet]
  | FSList.cons (FSEntry.file n) t, p => by
    have ih := mem_glob_iff_amended x t p
    by_cases hm : matchesLancePattern n <;>
      simp_all [globLocal, globRecur, amendedLanceSet, FSEntry.name, List.mem_append]
  | FSList.cons (FSEntry.dir n cs) t, p => by
    have ih1 := mem_glob_iff_amended x cs (p ++ "/" ++ n)
    have ih2 := mem_glob_iff_amended x t p
    by_cases hh : hiddenName n <;> by_cases hm : matchesLancePattern n <;>
      simp_all [globLocal, globRecur, amendedLanceSet, FSEntry.name, List.mem_append] <;>
      tauto

/-- C2 counterexample: a directory holding the single *file*
`.hidden.lance` — a file whose name ends in the fixed suffix `".lance"` — for
which discovery returns the empty list, not that file: glob's `*` never
matches a name that starts with a dot.  So discovery does not return "exactly
the set of files beneath the path whose name ends in `.lance`". -/
theorem C2_counterexample_hidden_file_missed :
    discover_lance_files "/db" (FSList.cons (FSEntry.file ".hidden.lance") FSList.nil) = [] ∧
    specLanceFiles "/db" (FSList.cons (FSEntry.file ".hidden.lance") FSList.nil) =
      ["/db/.hidden.lance"] ∧
    strEndsWith ".hidden.lance" ".lance" = true :=
  ⟨rfl, rfl, rfl⟩

/-- C2 (amended): discovery returns exactly the set of entries — files or
directories — whose name ends in `".lance"` and is not hidden, reachable from
the root through non-hidden directories; and when that set is empty it returns
an empty list and the sidebar reports `Found 0 LanceDB files` without
rendering any error. -/
theorem C2_discovery_set_and_empty_message :
    (∀ (root : FSList) (db_path x : String),
      x ∈ discover_lance_files db_path root ↔ x ∈ amendedLanceSet db_path root) ∧
    (∀ (db_path : String) (root : FSList) (ui : UIInputs) (lib : Except String LanceLib)
       (eng : RegexEngine),
      discover_lance_files db_path root = [] →
        handle_db_exists db_path root ui lib eng =
          [REvent.sbSuccess "Found 0 LanceDB files"] ∧
        ∀ e ∈ handle_db_exists db_path root ui lib eng,
          (∀ s, e ≠ REvent.sbError s) ∧ (∀ s, e ≠ REvent.errorMsg s)) := by
  constructor
  · intro root db_path x
    exact mem_glob_iff_amended x root db_path
  · intro db_path root ui lib eng h
    have hout : handle_db_exists db_path root ui lib eng =
        [REvent.sbSuccess "Found 0 LanceDB files"] := by
      simp [handle_db_exists, h]
      rfl
    refine ⟨hout, ?_⟩
    intro e he
    rw [hout] at he
    simp at he
    subst he
    exact ⟨fun _ => by simp, fun _ => by simp⟩

/-- Witness for C2 at the empty directory. -/
theorem C2_discovery_set_and_empty_message_witness :
    handle_db_exists "/db" FSList.nil ⟨0, false, "", "", "", false⟩ (.error "e")
        literalEngine = [REvent.sbSuccess "Found 0 LanceDB files"] :=
  (C2_discovery_set_and_empty_message.2 "/db" FSList.nil ⟨0, false, "", "", "", false⟩
    (.error "e") literalEngine rfl).1

/-- The characters of the fixed suffix `".lance"`. -/
def lanceChars : List Char := ['.', 'l', 'a', 'n', 'c', 'e']

/-- `".lance"` cannot start inside a copy of itself: if `".lance"` does not
occur in `c :: cs`, then it is not a prefix of `(c :: cs) ++ ".lance"` —
the only occurrence in the appended list is the final one. -/
theorem lance_not_prefix_of_append (c : Char) (cs : List Char)
    (h : ¬ lanceChars <:+: c :: cs) :
    lanceChars.isPrefixOf ((c :: cs) ++ lanceChars) = false := by
  cases hpb : lanceChars.isPrefixOf ((c :: cs) ++ lanceChars) with
  | false => rfl
  | true =>
    exfalso
    have hp : lanceChars <+: (c :: cs) ++ lanceChars := List.isPrefixOf_iff_prefix.mp hpb
    rcases cs with _ | ⟨a1, _ | ⟨a2, _ | ⟨a3, _ | ⟨a4, _ | ⟨a5, rest⟩⟩⟩⟩⟩
    · simp +decide [lanceChars, List.isPrefixOf] at hpb
    · simp +decide [lanceChars, List.isPrefixOf] at hpb
    · simp +decide [lanceChars, List.isPrefixOf] at hpb
    · simp +decide [lanceChars, List.isPrefixOf] at hpb
    · simp +decide [lanceChars, List.isPrefixOf] at hpb
    · have htake := List.prefix_iff_eq_take.mp hp
      rw [List.take_append_eq_append_take,
        show lanceChars.length - (c :: a1 :: a2 :: a3 :: a4 :: a5 :: rest).length = 0 from by
          simp [lanceChars], List.take_zero, List.append_nil] at htake
      have hpre : lanceChars <+: c :: a1 :: a2 :: a3 :: a4 :: a5 :: rest := by
        rw [htake]; exact List.take_prefix _ _
      exact h hpre.isInfix

/-- When `".lance"` does not occur in `l`, replacing every occurrence of
`".lance"` in `l ++ ".lance"` removes exactly the final suffix, leaving `l`. -/
theorem replaceFuel_strip_aux :
    ∀ (fuel : Nat) (l : List Char), (l ++ lanceChars).length ≤ fuel →
      ¬ lanceChars <:+: l →
      replaceFuel lanceChars [] fuel (l ++ lanceChars) = l := by
  intro fuel
  induction fuel with
  | zero => intro l hle _; simp [lanceChars] at hle
  | succ f ih =>
    intro l hle hinf
    match l with
    | [] => simp +decide [replaceFuel, lanceChars]
    | c :: cs =>
      have hnp := lance_not_prefix_of_append c cs hinf
      have hnp2 : lanceChars.isPrefixOf (c :: (cs ++ lanceChars)) = false := by
        simpa using hnp
      have hstep : replaceFuel lanceChars [] (f + 1) ((c :: cs) ++ lanceChars) =
          c :: replaceFuel lanceChars [] f (cs ++ lanceChars) := by
        simp only [List.cons_append, replaceFuel, List.append_eq, hnp2, Bool.false_and,
          Bool.false_eq_true, if_false]
      rw [hstep, ih cs (by simp at hle ⊢; omega) (fun hi => hinf (List.infix_cons hi))]

/-- C3 counterexample: the derivation at line 121 is
`basename.replace('.lance', '')`, which removes *every* occurrence of
`".lance"`, not just a final suffix, and is not idempotent.  On the base name
`"a.lance.lance"` it yields `"a"` while suffix-stripping yields `"a.lance"`;
and on `"..lancelance"` applying it twice differs from applying it once. -/
theorem C3_counterexample_replace_not_strip :
    connectTableName "a.lance.lance" = "a" ∧
    stripLanceSuffix "a.lance.lance" = "a.lance" ∧
    connectTableName "a.lance.lance" ≠ stripLanceSuffix "a.lance.lance" ∧
    connectTableName "..lancelance" = ".lance" ∧
    connectTableName (connectTableName "..lancelance") ≠ connectTableName "..lancelance" :=
  ⟨rfl, rfl, by decide, rfl, by decide⟩

/-- C3 (amended): the table name is derived by removing every occurrence of
`".lance"` from the file's base name.  On the spec's examples this coincides
with stripping the suffix (`"foo.lance" ↦ "foo"`, `"a.b.lance" ↦ "a.b"`), and
more generally it strips exactly the final suffix whenever `".lance"` does not
also occur earlier in the name; it is not idempotent on all strings. -/
theorem C3_table_name_derivation :
    (connectTableName "foo.lance" = "foo" ∧ connectTableName "a.b.lance" = "a.b") ∧
    ∀ s : List Char, ¬ lanceChars <:+: s →
      pyReplace ⟨s ++ lanceChars⟩ ".lance" "" = ⟨s⟩ := by
  refine ⟨⟨rfl, rfl⟩, ?_⟩
  intro s hs
  exact congrArg String.mk (replaceFuel_strip_aux (s ++ lanceChars).length s le_rfl hs)

/-- Witness for C3 at the base name `"my-table.lance"`. -/
theorem C3_table_name_derivation_witness :
    pyReplace ⟨"my-table".data ++ lanceChars⟩ ".lance" "" = ⟨"my-table".data⟩ :=
  C3_table_name_derivation.2 "my-table".data (by decide)

/-- The search criterion stated declaratively (the spec's words, over the
cell's Python string form): the lower-cased term occurs as a substring of the
lower-cased stringified value. -/
def SpecMatch (v : PyVal) (term : String) : Prop :=
  (strLower term).data <:+: (strLower (pyStr v)).data

instance (v : PyVal) (term : String) : Decidable (SpecMatch v term) := by
  unfold SpecMatch; infer_instance

/-- The executable substring test agrees with `List.IsInfix`. -/
theorem containsSub_infix_iff (hay pat : List Char) :
    containsSub hay pat = true ↔ pat <:+: hay := by
  simp only [containsSub, List.any_eq_true, List.mem_tails, List.isPrefixOf_iff_prefix,
    List.infix_iff_prefix_suffix]
  constructor <;> rintro ⟨t, h1, h2⟩ <;> exact ⟨t, h2, h1⟩

/-- The mask of a literal (metacharacter-free) pattern, applied to one
stringified cell, equals the decidable form of `SpecMatch`. -/
theorem literalMask_eq_decide (v : PyVal) (term : String) :
    containsSub (strLower (pyStr v)).data (strLower term).data =
      decide (SpecMatch v term) := by
  by_cases h : SpecMatch v term
  · rw [decide_eq_true h]
    exact (containsSub_infix_iff _ _).mpr h
  · rw [decide_eq_false h, ← Bool.not_eq_true, containsSub_infix_iff]
    exact h

/-- C4 counterexample: the claim says absent (null) values never match, but
the code's `astype(str)` coerces a null cell to the string `"None"` before
matching, so searching for the term `"None"` — a metacharacter-free pattern,
on which `literalEngine` agrees with `re` — in a column whose only value is
null finds one matching record and displays that row. -/
theorem C4_counterexample_null_matches :
    (searchFilterM (fun s => containsSub (strLower s).data (strLower "None").data)
        ⟨["c"], [[PyVal.none]]⟩ "c").rows = [[PyVal.none]] ∧
    handle_search_ui literalEngine ⟨["c"], [[PyVal.none]]⟩ "c" "None" =
      ([REvent.header "🔍 Search Records",
        REvent.selectbox "Search in column" ["c"],
        REvent.textInput "Search term",
        REvent.write "Found 1 matching records",
        REvent.dataframe ⟨["c"], [[PyVal.none]]⟩], none) ∧
    LiteralTerm "None" := by
  exact ⟨rfl, rfl, by decide⟩

/-- C4 (amended): for every non-empty term, the mask
`df[col].astype(str).str.contains(term, case=False, na=False)` coerces each
value of the chosen column to its Python string form — null cells becoming the
string `"None"` — and interprets the term as a case-insensitive regular
expression (pandas' `regex=True` default).  When the term compiles, the count
of matches and exactly the matching rows are displayed; when it does not, the
widgets having rendered, `re.error` propagates out of the handler into the
connect chain's `try`, which appends the inline `Connection failed: …` message
after the already-rendered sections and never reaches the query section —
instead of the values being treated as non-matching.  For a term with no regex
metacharacter this is a case-insensitive substring match; in particular
`"abc"` over `["ABCx", "xyz", None]` matches exactly the first value. -/
theorem C4_search_matching :
    (∀ (eng : RegexEngine) (df : Df) (col term : String) (m : String → Bool),
      term ≠ "" → eng.compile term = .ok m →
      handle_search_ui eng df col term =
        ([REvent.header "🔍 Search Records",
          REvent.selectbox "Search in column" df.columns,
          REvent.textInput "Search term",
          REvent.write ("Found " ++ toString (searchFilterM m df col).rows.length ++
            " matching records"),
          REvent.dataframe (searchFilterM m df col)], none)) ∧
    (∀ (eng : RegexEngine) (df : Df) (col term e : String),
      term ≠ "" → eng.compile term = .error e →
      handle_search_ui eng df col term =
        ([REvent.header "🔍 Search Records",
          REvent.selectbox "Search in column" df.columns,
          REvent.textInput "Search term"], some e)) ∧
    (∀ (rows : List (List PyVal)) (cols : List String) (fields : List (String × String))
       (qfun : String → Except String Df) (eng : RegexEngine) (ui : UIInputs)
       (db_path file e : String),
      ui.searchTerm ≠ "" → eng.compile ui.searchTerm = .error e →
      connect_to_database
          (.ok ⟨fun _ => .ok ⟨fun _ => .ok ⟨rows, cols, fields, none, none, none⟩, qfun⟩⟩)
          eng db_path file ui =
        [REvent.success ("Connected to table: " ++ connectTableName file),
         REvent.metric "Total Records" (toString rows.length),
         REvent.metric "Table Name" (connectTableName file),
         REvent.metric "Database Path" db_path,
         REvent.header "📋 Table Schema",
         REvent.dataframe (schemaDf fields),
         REvent.header "📊 Sample Records",
         REvent.dataframe ⟨cols, rows.take 10⟩,
         REvent.header "🔍 Search Records",
         REvent.selectbox "Search in column" cols,
         REvent.textInput "Search term",
         REvent.errorMsg ("Connection failed: " ++ e)]) ∧
    (∀ eng : RegexEngine, LiteralFaithful eng →
      ∀ (df : Df) (col term : String), term ≠ "" → LiteralTerm term →
      ∃ m, eng.compile term = .ok m ∧
        (searchFilterM m df col).rows =
          df.rows.filter fun r =>
            decide (SpecMatch (rowCell r (df.columns.indexOf col)) term)) ∧
    (searchFilterM (fun s => containsSub (strLower s).data (strLower "abc").data)
        ⟨["c"], [[PyVal.str "ABCx"], [PyVal.str "xyz"], [PyVal.none]]⟩ "c").rows =
      [[PyVal.str "ABCx"]] := by
  refine ⟨fun eng df col term m ht hc => ?_, fun eng df col term e ht hc => ?_,
    fun rows cols fields qfun eng ui db_path file e ht hc => ?_,
    fun eng hlit df col term ht htl => ?_, rfl⟩
  · simp [handle_search_ui, ht, hc]
  · simp [handle_search_ui, ht, hc]
  · have hs : handle_search_ui eng ⟨cols, rows.take 10⟩ ui.searchCol ui.searchTerm =
        ([REvent.header "🔍 Search Records",
          REvent.selectbox "Search in column" cols,
          REvent.textInput "Search term"], some e) := by
      simp [handle_search_ui, ht, hc]
    simp [connect_to_database, display_table_metrics, display_schema_info,
      display_sample_records, Table.count_rows, Table.schemaItems, Table.limit_to_pandas, hs]
  · refine ⟨_, hlit term htl, ?_⟩
    simp only [searchFilterM]
    exact List.filter_congr fun r _ => literalMask_eq_decide _ _

/-- Witness for C4: the literal engine, a one-row dataframe and the
metacharacter-free term `"abc"`. -/
theorem C4_search_matching_witness :
    ∃ m, literalEngine.compile "abc" = .ok m ∧
      (searchFilterM m ⟨["c"], [[PyVal.str "ABCx"]]⟩ "c").rows =
        (⟨["c"], [[PyVal.str "ABCx"]]⟩ : Df).rows.filter fun r =>
          decide (SpecMatch
            (rowCell r ((⟨["c"], [[PyVal.str "ABCx"]]⟩ : Df).columns.indexOf "c")) "abc") :=
  C4_search_matching.2.2.2.1 literalEngine literalEngine_faithful
    ⟨["c"], [[PyVal.str "ABCx"]]⟩ "c" "abc" (by decide) (by decide)

/-- C5: the query text is submitted verbatim to `db.query` (the recorded
submissions are exactly `[q]` on press, none otherwise); an execution failure
is caught and rendered as an inline `Query failed: …` message after the
widgets; and in every run whose search step completes without raising (an
empty or valid-regex term — a run aborted at the search step never reaches the
query section at all), the chain output factors as `pre ++` the raw-query
events with `pre` — schema and sample sections included — independent of the
query function, so a query failure leaves them unchanged. -/
theorem C5_raw_query_verbatim_and_caught :
    (∀ (db : Conn) (q : String) (pressed : Bool),
      ((handle_raw_query db q pressed).2 = if pressed then [q] else []) ∧
      (∀ e, db.query q = .error e → pressed = true →
        handle_raw_query db q pressed =
          ([REvent.header "⚡ Raw Query",
            REvent.textArea "LanceDB Query" "SELECT * FROM table LIMIT 100",
            REvent.button "Execute Query",
            REvent.errorMsg ("Query failed: " ++ e)], [q]))) ∧
    (∀ (rows : List (List PyVal)) (cols : List String) (fields : List (String × String))
       (eng : RegexEngine) (ui : UIInputs) (db_path file : String),
      (handle_search_ui eng ⟨cols, rows.take 10⟩ ui.searchCol ui.searchTerm).2 = none →
      ∃ pre : List REvent,
        (∀ qf : String → Except String Df,
          connect_to_database
              (.ok ⟨fun _ => .ok ⟨fun _ => .ok ⟨rows, cols, fields, none, none, none⟩, qf⟩⟩)
              eng db_path file ui =
            pre ++ (handle_raw_query ⟨fun _ => .ok ⟨rows, cols, fields, none, none, none⟩, qf⟩
              ui.queryText ui.queryPressed).1) ∧
        REvent.header "📋 Table Schema" ∈ pre ∧
        REvent.header "📊 Sample Records" ∈ pre) := by
  constructor
  · intro db q pressed
    constructor
    · cases pressed <;> cases hq : db.query q <;> simp [handle_raw_query, hq]
    · intro e hq hp
      subst hp
      simp [handle_raw_query, hq]
  · intro rows cols fields eng ui db_path file hs
    refine ⟨[REvent.success ("Connected to table: " ++ connectTableName file),
      REvent.metric "Total Records" (toString rows.length),
      REvent.metric "Table Name" (connectTableName file),
      REvent.metric "Database Path" db_path,
      REvent.header "📋 Table Schema",
      REvent.dataframe (schemaDf fields),
      REvent.header "📊 Sample Records",
      REvent.dataframe ⟨cols, rows.take 10⟩] ++
      (handle_search_ui eng ⟨cols, rows.take 10⟩ ui.searchCol ui.searchTerm).1, ?_,
      by simp, by simp⟩
    intro qf
    simp [connect_to_database, display_table_metrics, display_schema_info,
      display_sample_records, Table.count_rows, Table.schemaItems, Table.limit_to_pandas, hs]

/-- Witness for C5: a failing query function on a trivial connection, and a
connect chain whose search step completes (empty term). -/
theorem C5_raw_query_verbatim_and_caught_witness :
    (handle_raw_query ⟨fun _ => .ok ⟨[], [], [], none, none, none⟩,
        fun _ => .error "boom"⟩ "SELECT 1" true =
      ([REvent.header "⚡ Raw Query",
        REvent.textArea "LanceDB Query" "SELECT * FROM table LIMIT 100",
        REvent.button "Execute Query",
        REvent.errorMsg ("Query failed: boom")], ["SELECT 1"])) ∧
    ∃ pre : List REvent,
      (∀ qf : String → Except String Df,
        connect_to_database
            (.ok ⟨fun _ => .ok ⟨fun _ => .ok ⟨[], ["c"], [], none, none, none⟩, qf⟩⟩)
            literalEngine "/db" "f.lance" ⟨0, false, "", "", "q", false⟩ =
          pre ++ (handle_raw_query ⟨fun _ => .ok ⟨[], ["c"], [], none, none, none⟩, qf⟩
            (⟨0, false, "", "", "q", false⟩ : UIInputs).queryText
            (⟨0, false, "", "", "q", false⟩ : UIInputs).queryPressed).1) ∧
      REvent.header "📋 Table Schema" ∈ pre ∧
      REvent.header "📊 Sample Records" ∈ pre :=
  ⟨(C5_raw_query_verbatim_and_caught.1 _ "SELECT 1" true).2 "boom" rfl rfl,
   C5_raw_query_verbatim_and_caught.2 [] ["c"] [] literalEngine
     ⟨0, false, "", "", "q", false⟩ "/db" "f.lance" rfl⟩

/-- C7: on a successful connect the chain renders the row count, the schema
and the sample rows as separate events in that fixed order; and a failure at
the count, schema or sample step renders exactly the events of the completed
steps followed by the inline error — prior output stays, later steps never
run. -/
theorem C7_fixed_order_and_abort :
    (∀ (rows : List (List PyVal)) (cols : List String) (fields : List (String × String))
       (qfun : String → Except String Df) (eng : RegexEngine) (ui : UIInputs)
       (db_path file : String),
      [REvent.metric "Total Records" (toString rows.length),
       REvent.header "📋 Table Schema",
       REvent.dataframe (schemaDf fields),
       REvent.header "📊 Sample Records",
       REvent.dataframe ⟨cols, rows.take 10⟩].Sublist
        (connect_to_database
          (.ok ⟨fun _ => .ok ⟨fun _ => .ok ⟨rows, cols, fields, none, none, none⟩, qfun⟩⟩)
          eng db_path file ui)) ∧
    (∀ rows cols fields (e : String) (sf ff : Option String) qfun (eng : RegexEngine)
       (ui : UIInputs) (db_path file : String),
      connect_to_database
          (.ok ⟨fun _ => .ok ⟨fun _ => .ok ⟨rows, cols, fields, some e, sf, ff⟩, qfun⟩⟩)
          eng db_path file ui =
        [REvent.success ("Connected to table: " ++ connectTableName file),
         REvent.errorMsg ("Connection failed: " ++ e)]) ∧
    (∀ rows cols fields (e : String) (ff : Option String) qfun (eng : RegexEngine)
       (ui : UIInputs) (db_path file : String),
      connect_to_database
          (.ok ⟨fun _ => .ok ⟨fun _ => .ok ⟨rows, cols, fields, none, some e, ff⟩, qfun⟩⟩)
          eng db_path file ui =
        [REvent.success ("Connected to table: " ++ connectTableName file),
         REvent.metric "Total Records" (toString rows.length),
         REvent.metric "Table Name" (connectTableName file),
         REvent.metric "Database Path" db_path,
         REvent.header "📋 Table Schema",
         REvent.errorMsg ("Connection failed: " ++ e)]) ∧
    (∀ rows cols fields (e : String) qfun (eng : RegexEngine) (ui : UIInputs)
       (db_path file : String),
      connect_to_database
          (.ok ⟨fun _ => .ok ⟨fun _ => .ok ⟨rows, cols, fields, none, none, some e⟩, qfun⟩⟩)
          eng db_path file ui =
        [REvent.success ("Connected to table: " ++ connectTableName file),
         REvent.metric "Total Records" (toString rows.length),
         REvent.metric "Table Name" (connectTableName file),
         REvent.metric "Database Path" db_path,
         REvent.header "📋 Table Schema",
         REvent.dataframe (schemaDf fields),
         REvent.header "📊 Sample Records",
         REvent.errorMsg ("Connection failed: " ++ e)]) := by
  refine ⟨?_, fun _ _ _ _ _ _ _ _ _ _ _ => rfl, fun _ _ _ _ _ _ _ _ _ _ => rfl,
    fun _ _ _ _ _ _ _ _ _ => rfl⟩
  intro rows cols fields qfun eng ui db_path file
  rcases hs : (handle_search_ui eng ⟨cols, rows.take 10⟩ ui.searchCol ui.searchTerm).2
    with _ | e <;>
  · simp only [connect_to_database, display_table_metrics, display_schema_info,
      display_sample_records, Table.count_rows, Table.schemaItems, Table.limit_to_pandas,
      hs, List.cons_append, List.nil_append, List.append_assoc]
    repeat' first
      | exact List.nil_sublist _
      | apply List.Sublist.cons₂
      | apply List.Sublist.cons

/-- Witness for C10 at a concrete file list. -/
theorem C10_selector_label_eq_connect_name_witness :
    (["/db/foo.lance"].map selectorFormatFunc).get ⟨0, by decide⟩ =
      connectTableName ((create_table_selector ["/db/foo.lance"] 0).2) :=
  C10_selector_label_eq_connect_name.2 ["/db/foo.lance"] 0 (by decide)

end LanceInspector
